import Mathlib

/-!
Verification of the PRISM downloadable-configuration material
(tinyqv-prism-lite): the embedded configuration tables from
`src/chromas/output/chroma_gpio24.c` and
`src/chromas/output/chroma_spislave.c`, together with the Configuration
Image Loader and Validator that the specification defines as the
conceptual core consuming those tables (ImageValidator and ImageApplier).
The tables are transcribed directly from the C source; the validator and
applier are modelled from the specification, since the repository ships
only the generated data tables.
-/

/-- The raw word table of `chroma_gpio24`, transcribed from
`src/chromas/output/chroma_gpio24.c` (`const uint32_t chroma_gpio24[]`). -/
def chroma_gpio24 : List Nat :=
  [0x000003c0, 0x08000000,
   0x00000140, 0x08010010,
   0x00000bc0, 0x0800d200,
   0x000003c0, 0x0800a000,
   0x00000140, 0x0801401d,
   0x00000280, 0x0841601a,
   0x000003c0, 0x08004000,
   0x00000288, 0x00012010]

/-- `const uint32_t chroma_gpio24_count = 8`. -/
def chroma_gpio24_count : Nat := 8

/-- `const uint32_t chroma_gpio24_width = 44`. -/
def chroma_gpio24_width : Nat := 44

/-- The raw word table of `chroma_spislave`, transcribed from
`src/chromas/output/chroma_spislave.c` (`const uint32_t chroma_spislave[]`). -/
def chroma_spislave : List Nat :=
  [0x000003c0, 0x08000000,
   0x00000380, 0x08010000,
   0x00000141, 0x08012003,
   0x000003f8, 0x0800a000,
   0x00000140, 0x0801a01d,
   0x00000380, 0x08010000,
   0x00000282, 0x08016003,
   0x00000041, 0x08012000]

/-- `const uint32_t chroma_spislave_count = 8`. -/
def chroma_spislave_count : Nat := 8

/-- `const uint32_t chroma_spislave_width = 44`. -/
def chroma_spislave_width : Nat := 44

/-- `const uint32_t chroma_spislave_ctrlReg = 0x00002912`. -/
def chroma_spislave_ctrlReg : Nat := 0x00002912

/-- Modelled from the spec: a `ConfigEntry` is an opaque
(address-word, value-word) pair of 32-bit unsigned values (spec section 3);
the repository ships only the flat word tables, not this record type. -/
structure ConfigEntry where
  address : Nat
  value : Nat
deriving DecidableEq

/-- Modelled from the spec: a `ConfigImage` bundles the ordered entry
sequence with its declared metadata — declared entry count, declared value
bit width, and an optional post-load control-register value
(spec section 3); absent from the repository, which ships only the data. -/
structure ConfigImage where
  entries : List ConfigEntry
  entryCount : Nat
  width : Nat
  controlRegisterValue : Option Nat
deriving DecidableEq

/-- Modelled from the spec: the validation-error taxonomy of spec
section 7 (`EmptyImage`, `UnsupportedWidth`, `MalformedImage`,
`CountMismatch`, `ValueOutOfRange` with the offending index). -/
inductive ValidationError where
  | EmptyImage : ValidationError
  | UnsupportedWidth : ValidationError
  | MalformedImage : ValidationError
  | CountMismatch : ValidationError
  | ValueOutOfRange : Nat → ValidationError
deriving DecidableEq

/-- Whether a validation error is a `ValueOutOfRange` error (any index). -/
def ValidationError.isValueOutOfRange : ValidationError → Bool
  | .ValueOutOfRange _ => true
  | _ => false

namespace ImageValidator

/-- Modelled from the spec: decode a flat word sequence into entries, two
consecutive words per entry, address-word then value-word (spec section
4.1); the flat pair encoding is what the C tables use. -/
def pairUp : List Nat → List ConfigEntry
  | a :: v :: rest => ⟨a, v⟩ :: pairUp rest
  | _ => []

/-- Modelled from the spec: index of the first entry whose value exceeds
the declared bit width (`value >> declaredWidth != 0`), if any
(spec section 4.1 step 5). -/
def findOutOfRange (width : Nat) : List ConfigEntry → Option Nat
  | [] => none
  | e :: rest =>
    if e.value >>> width = 0 then
      (findOutOfRange width rest).map (fun j => j + 1)
    else some 0

/-- Modelled from the spec: `ImageValidator` (spec section 4.1), absent
from the repository. Checks run in the spec's fixed order, each
short-circuiting on first failure: (1) `declaredCount == 0` gives
`EmptyImage`; (2) `declaredWidth` outside the supported set gives
`UnsupportedWidth`; (3) odd word count gives `MalformedImage`;
(4) `len(rawWords) != 2*declaredCount` gives `CountMismatch`;
(5) a value exceeding the declared width gives `ValueOutOfRange` with the
first offending index. On success it returns the decoded immutable
`ConfigImage`. The supported-width set is a parameter: the spec says the
loader enumerates the set it accepts but does not fix its elements. -/
def validate (supported : List Nat) (rawWords : List Nat)
    (declaredCount declaredWidth : Nat) (declaredControlValue : Option Nat) :
    Except ValidationError ConfigImage :=
  if declaredCount = 0 then .error .EmptyImage
  else if declaredWidth ∈ supported then
    if rawWords.length % 2 ≠ 0 then .error .MalformedImage
    else if rawWords.length ≠ 2 * declaredCount then .error .CountMismatch
    else
      match findOutOfRange declaredWidth (pairUp rawWords) with
      | some i => .error (.ValueOutOfRange i)
      | none =>
        .ok { entries := pairUp rawWords
              entryCount := declaredCount
              width := declaredWidth
              controlRegisterValue := declaredControlValue }
  else .error .UnsupportedWidth

/-- Modelled from the spec: re-serialize entries back into a flat word
sequence, address-word then value-word per entry (spec section 8,
round-trip property). -/
def serializeEntries : List ConfigEntry → List Nat
  | [] => []
  | e :: rest => e.address :: e.value :: serializeEntries rest

end ImageValidator

/-- Decidable equality on `Except` results, so that validator outcomes can
be evaluated on the concrete embedded tables. -/
instance decEqExcept {ε α : Type} [DecidableEq ε] [DecidableEq α] :
    DecidableEq (Except ε α)
  | .error a, .error b =>
    if h : a = b then .isTrue (by rw [h]) else .isFalse (by simp [h])
  | .error _, .ok _ => .isFalse (by simp)
  | .ok _, .error _ => .isFalse (by simp)
  | .ok a, .ok b =>
    if h : a = b then .isTrue (by rw [h]) else .isFalse (by simp [h])

/-- A single invocation of `RegisterSink.write`, recorded in order of
issue: the address and value passed, and whether the sink reported
success. -/
structure WriteCall where
  address : Nat
  value : Nat
  ok : Bool
deriving DecidableEq

namespace ImageApplier

/-- Modelled from the spec: apply-phase error taxonomy (spec section 7):
`HardwareWriteError` with the failing entry index, or
`ControlWriteFailed` for the final control-register write. -/
inductive ApplyError where
  | HardwareWriteError : Nat → ApplyError
  | ControlWriteFailed : ApplyError
deriving DecidableEq

/-- Modelled from the spec: stream entries to the `RegisterSink` in strict
sequence order (spec section 4.2). The sink is a function from the call
index and the (address, value) arguments to a success flag, covering any
deterministic sink behaviour over a call sequence. Returns the list of
write invocations issued (in order, with each call's outcome) and, on a
failed write, the failing entry index; on `HardwareWriteError` at entry
`i` it stops immediately. -/
def applyFrom (sink : Nat → Nat → Nat → Bool) :
    Nat → List ConfigEntry → List WriteCall × Option Nat
  | _, [] => ([], none)
  | i, e :: rest =>
    if sink i e.address e.value then
      let r := applyFrom sink (i + 1) rest
      (⟨e.address, e.value, true⟩ :: r.1, r.2)
    else
      ([⟨e.address, e.value, false⟩], some i)

/-- Modelled from the spec: `ImageApplier` (spec section 4.2), absent from
the repository. Writes all entries in order via `applyFrom`; on a failed
entry write it reports `HardwareWriteError` with the failing index.
After all entries succeed, iff `controlRegisterValue` is present, it
issues exactly one further write of that value to the fixed
control-register address `ctrlAddr`; failure there is reported as
`ControlWriteFailed`. Returns the full ordered list of write invocations
and the outcome. -/
def apply (sink : Nat → Nat → Nat → Bool) (ctrlAddr : Nat)
    (img : ConfigImage) : List WriteCall × Except ApplyError Unit :=
  let r := applyFrom sink 0 img.entries
  match r.2 with
  | some i => (r.1, .error (.HardwareWriteError i))
  | none =>
    match img.controlRegisterValue with
    | none => (r.1, .ok ())
    | some v =>
      if sink img.entries.length ctrlAddr v then
        (r.1 ++ [⟨ctrlAddr, v, true⟩], .ok ())
      else
        (r.1 ++ [⟨ctrlAddr, v, false⟩], .error .ControlWriteFailed)

end ImageApplier

/-- Modelled from the spec: loader-level error, either a validation-phase
error or an apply-phase error (spec section 7 taxonomy). -/
inductive LoadError where
  | validation : ValidationError → LoadError
  | applying : ImageApplier.ApplyError → LoadError
deriving DecidableEq

/-- Modelled from the spec: the full pipeline of spec section 2 — raw word
array through `ImageValidator` (pure) and then, only on successful
validation, `ImageApplier` against the injected sink. Returns every write
invocation issued together with the outcome; a validation failure issues
no writes. -/
def loadAndApply (supported : List Nat) (sink : Nat → Nat → Nat → Bool)
    (ctrlAddr : Nat) (raw : List Nat) (count width : Nat)
    (cv : Option Nat) : List WriteCall × Except LoadError Unit :=
  match ImageValidator.validate supported raw count width cv with
  | .error e => ([], .error (.validation e))
  | .ok img =>
    let r := ImageApplier.apply sink ctrlAddr img
    match r.2 with
    | .ok _ => (r.1, .ok ())
    | .error e => (r.1, .error (.applying e))

/-- The `ConfigImage` decoded from the `chroma_gpio24` table and its
metadata; this chroma declares no control-register value. -/
def chroma_gpio24_image : ConfigImage :=
  { entries := ImageValidator.pairUp chroma_gpio24
    entryCount := chroma_gpio24_count
    width := chroma_gpio24_width
    controlRegisterValue := none }

/-- The `ConfigImage` decoded from the `chroma_spislave` table and its
metadata; this chroma declares the control-register value
`chroma_spislave_ctrlReg`. -/
def chroma_spislave_image : ConfigImage :=
  { entries := ImageValidator.pairUp chroma_spislave
    entryCount := chroma_spislave_count
    width := chroma_spislave_width
    controlRegisterValue := some chroma_spislave_ctrlReg }

/-- Helper: with a sink that always succeeds, `applyFrom` issues one
successful write per entry, in order, and reports no failing index. -/
theorem applyFrom_all_ok (sink : Nat → Nat → Nat → Bool)
    (hs : ∀ i a v, sink i a v = true) :
    ∀ (es : List ConfigEntry) (i : Nat),
      ImageApplier.applyFrom sink i es =
        (es.map (fun e => ⟨e.address, e.value, true⟩), none)
  | [], _ => rfl
  | e :: rest, i => by
    simp [ImageApplier.applyFrom, hs i e.address e.value,
      applyFrom_all_ok sink hs rest (i + 1)]

/-- Helper: with a sink that succeeds on every call index below
`i + pre.length` and fails at call index `i + pre.length`, `applyFrom`
starting at call index `i` on `pre ++ e :: post` issues the writes of
`pre` successfully, then the failing invocation for `e`, stops, and
reports the failing index. -/
theorem applyFrom_fail (sink : Nat → Nat → Nat → Bool) :
    ∀ (pre : List ConfigEntry) (e : ConfigEntry) (post : List ConfigEntry)
      (i : Nat),
      (∀ m a v, m < i + pre.length → sink m a v = true) →
      (∀ a v, sink (i + pre.length) a v = false) →
      ImageApplier.applyFrom sink i (pre ++ e :: post) =
        (pre.map (fun p => ⟨p.address, p.value, true⟩) ++
          [⟨e.address, e.value, false⟩], some (i + pre.length))
  | [], e, post, i, _, hfail => by
    have hf : sink i e.address e.value = false := by
      simpa using hfail e.address e.value
    simp [ImageApplier.applyFrom, hf]
  | p :: pre2, e, post, i, hsucc, hfail => by
    have hp : sink i p.address p.value = true := by
      apply hsucc; simp [List.length_cons]
    have hrec := applyFrom_fail sink pre2 e post (i + 1)
      (fun m a v hm => hsucc m a v (by simp [List.length_cons] at hm ⊢; omega))
      (fun a v => by
        have hidx : i + 1 + pre2.length = i + (p :: pre2).length := by
          simp [List.length_cons]; omega
        rw [hidx]; exact hfail a v)
    simp [ImageApplier.applyFrom, hp, hrec, List.length_cons]
    omega

/-- C1: for every `ConfigImage` (in particular every validated one) with
entry list `entries` and every sink whose writes always succeed,
`ImageApplier.apply` invokes the sink once per entry, in entry-sequence
order with that entry's (address, value), followed by exactly one extra
control-register write iff `controlRegisterValue` is present — as it is
for `chroma_spislave` and is not for `chroma_gpio24`. -/
theorem apply_succeeds_writes_in_order (sink : Nat → Nat → Nat → Bool)
    (ctrlAddr : Nat) (img : ConfigImage)
    (hs : ∀ i a v, sink i a v = true) :
    ((ImageApplier.apply sink ctrlAddr img).1 =
      img.entries.map (fun e => ⟨e.address, e.value, true⟩) ++
        (match img.controlRegisterValue with
          | some v => [⟨ctrlAddr, v, true⟩]
          | none => [])) ∧
    chroma_spislave_image.controlRegisterValue = some chroma_spislave_ctrlReg ∧
    chroma_gpio24_image.controlRegisterValue = none := by
  refine ⟨?_, rfl, rfl⟩
  have hall := applyFrom_all_ok sink hs img.entries 0
  cases hcv : img.controlRegisterValue with
  | none => simp [ImageApplier.apply, hall, hcv]
  | some v => simp [ImageApplier.apply, hall, hcv, hs]

/-- Witness for C1 at the `chroma_spislave` image and an
always-succeeding sink. -/
theorem apply_succeeds_writes_in_order_witness :
    ((ImageApplier.apply (fun _ _ _ => true) 0 chroma_spislave_image).1 =
      chroma_spislave_image.entries.map (fun e => ⟨e.address, e.value, true⟩) ++
        (match chroma_spislave_image.controlRegisterValue with
          | some v => [⟨0, v, true⟩]
          | none => [])) ∧
    chroma_spislave_image.controlRegisterValue = some chroma_spislave_ctrlReg ∧
    chroma_gpio24_image.controlRegisterValue = none :=
  apply_succeeds_writes_in_order (fun _ _ _ => true) 0 chroma_spislave_image
    (fun _ _ _ => rfl)

/-- C2: for every `ConfigImage` and every sink that succeeds on the first
`k` calls and fails on call `k` (with `k < N`), `ImageApplier.apply`
issues exactly `k` successful writes (entries `0..k-1`, in order), then
the one failing invocation for entry `k`, reports the failure with index
`k`, and issues no write for any entry with index greater than `k`. -/
theorem apply_stops_at_first_failure (sink : Nat → Nat → Nat → Bool)
    (ctrlAddr : Nat) (img : ConfigImage) (k : Nat)
    (hk : k < img.entries.length)
    (hsucc : ∀ m a v, m < k → sink m a v = true)
    (hfail : ∀ a v, sink k a v = false) :
    (ImageApplier.apply sink ctrlAddr img).1 =
      (img.entries.take k).map (fun e => ⟨e.address, e.value, true⟩) ++
        [⟨(img.entries[k]).address, (img.entries[k]).value, false⟩] ∧
    (ImageApplier.apply sink ctrlAddr img).2 =
      .error (.HardwareWriteError k) := by
  have hlen : (img.entries.take k).length = k := by
    simp [List.length_take, Nat.min_eq_left (le_of_lt hk)]
  have hdecomp : img.entries =
      img.entries.take k ++ img.entries[k] :: img.entries.drop (k + 1) := by
    conv_lhs => rw [← List.take_append_drop k img.entries]
    rw [List.drop_eq_getElem_cons hk]
  have happ := applyFrom_fail sink (img.entries.take k) (img.entries[k])
    (img.entries.drop (k + 1)) 0
    (fun m a v hm => hsucc m a v (by rw [hlen] at hm; omega))
    (fun a v => by rw [Nat.zero_add, hlen]; exact hfail a v)
  rw [Nat.zero_add, hlen] at happ
  rw [← hdecomp] at happ
  constructor
  · simp [ImageApplier.apply, happ]
  · simp [ImageApplier.apply, happ]

/-- Witness for C2 at the `chroma_gpio24` image, `k = 1`, with the sink
that succeeds exactly on call index 0. -/
theorem apply_stops_at_first_failure_witness :
    (ImageApplier.apply (fun i _ _ => i == 0) 0 chroma_gpio24_image).1 =
      [⟨0x000003c0, 0x08000000, true⟩, ⟨0x00000140, 0x08010010, false⟩] ∧
    (ImageApplier.apply (fun i _ _ => i == 0) 0 chroma_gpio24_image).2 =
      .error (.HardwareWriteError 1) := by
  have h := apply_stops_at_first_failure (fun i _ _ => i == 0) 0
    chroma_gpio24_image 1 (by decide)
    (fun m a v hm => by simp [Nat.lt_one_iff.mp hm])
    (fun a v => rfl)
  exact ⟨by rw [h.1]; rfl, h.2⟩

/-- C7: validating the first four words of `chroma_gpio24` with declared
count 2 and width 44 succeeds, producing exactly the two entries
`(0x000003c0, 0x08000000)` and `(0x00000140, 0x08010010)` in that order,
and applying the result against an always-succeeding sink issues the two
writes in that exact order. -/
theorem concrete_gpio24_prefix_scenario (sink : Nat → Nat → Nat → Bool)
    (ctrlAddr : Nat) (hs : ∀ i a v, sink i a v = true) :
    chroma_gpio24.take 4 = [0x000003c0, 0x08000000, 0x00000140, 0x08010010] ∧
    ImageValidator.validate [44] (chroma_gpio24.take 4) 2 44 none =
      .ok { entries := [⟨0x000003c0, 0x08000000⟩, ⟨0x00000140, 0x08010010⟩],
            entryCount := 2, width := 44, controlRegisterValue := none } ∧
    (ImageApplier.apply sink ctrlAddr
        { entries := [⟨0x000003c0, 0x08000000⟩, ⟨0x00000140, 0x08010010⟩],
          entryCount := 2, width := 44, controlRegisterValue := none }).1 =
      [⟨0x000003c0, 0x08000000, true⟩, ⟨0x00000140, 0x08010010, true⟩] := by
  refine ⟨by decide, by decide, ?_⟩
  have hall := applyFrom_all_ok sink hs
    [⟨0x000003c0, 0x08000000⟩, ⟨0x00000140, 0x08010010⟩] 0
  simp [ImageApplier.apply, hall]

/-- Witness for C7 at the constant always-true sink. -/
theorem concrete_gpio24_prefix_scenario_witness :
    chroma_gpio24.take 4 = [0x000003c0, 0x08000000, 0x00000140, 0x08010010] ∧
    ImageValidator.validate [44] (chroma_gpio24.take 4) 2 44 none =
      .ok { entries := [⟨0x000003c0, 0x08000000⟩, ⟨0x00000140, 0x08010010⟩],
            entryCount := 2, width := 44, controlRegisterValue := none } ∧
    (ImageApplier.apply (fun _ _ _ => true) 0
        { entries := [⟨0x000003c0, 0x08000000⟩, ⟨0x00000140, 0x08010010⟩],
          entryCount := 2, width := 44, controlRegisterValue := none }).1 =
      [⟨0x000003c0, 0x08000000, true⟩, ⟨0x00000140, 0x08010010, true⟩] :=
  concrete_gpio24_prefix_scenario (fun _ _ _ => true) 0 (fun _ _ _ => rfl)

/-- Helper: re-serializing the entries decoded from an even-length word
sequence reproduces the sequence exactly. -/
theorem serializeEntries_pairUp :
    ∀ (l : List Nat), l.length % 2 = 0 →
      ImageValidator.serializeEntries (ImageValidator.pairUp l) = l
  | [], _ => rfl
  | [a], h => by simp at h
  | a :: v :: rest, h => by
    have hr : rest.length % 2 = 0 := by
      simp [List.length_cons] at h; omega
    simp [ImageValidator.pairUp, ImageValidator.serializeEntries,
      serializeEntries_pairUp rest hr]

/-- Helper: `findOutOfRange` returns exactly the index of the first entry
whose value exceeds the declared width. -/
theorem findOutOfRange_eq_some_of_first (width : Nat) :
    ∀ (es : List ConfigEntry) (j : Nat) (hj : j < es.length),
      (es.get ⟨j, hj⟩).value >>> width ≠ 0 →
      (∀ m (hm : m < j), (es.get ⟨m, hm.trans hj⟩).value >>> width = 0) →
      ImageValidator.findOutOfRange width es = some j
  | [], j, hj, _, _ => absurd hj (Nat.not_lt_zero j)
  | e :: rest, 0, _, hbad, _ => by
    have hb : ¬ e.value >>> width = 0 := by simpa using hbad
    simp [ImageValidator.findOutOfRange, hb]
  | e :: rest, j + 1, hj, hbad, hfirst => by
    have he : e.value >>> width = 0 := by
      simpa using hfirst 0 (Nat.succ_pos j)
    have hjr : j < rest.length := by
      simp [List.length_cons] at hj; omega
    have hrest := findOutOfRange_eq_some_of_first width rest j hjr
      (by simpa using hbad)
      (fun m hm => by simpa using hfirst (m + 1) (Nat.succ_lt_succ hm))
    simp [ImageValidator.findOutOfRange, he, hrest]

/-- Helper: when the declared width belongs to the supported set,
validation does not depend on the rest of that set. -/
theorem validate_width_mem (supported : List Nat) (raw : List Nat)
    (count width : Nat) (cv : Option Nat) (hw : width ∈ supported) :
    ImageValidator.validate supported raw count width cv =
      ImageValidator.validate [width] raw count width cv := by
  simp [ImageValidator.validate, hw]

/-- C5: `ImageValidator` applies its checks in the fixed order —
`declaredCount == 0` yields `EmptyImage`; otherwise an unsupported
`declaredWidth` yields `UnsupportedWidth`; otherwise an odd raw length
yields `MalformedImage`; otherwise a raw length different from
`2 * declaredCount` yields `CountMismatch`; otherwise an over-wide value
yields `ValueOutOfRange` — the error returned is that of the earliest
failing check. -/
theorem validate_check_order (supported : List Nat) (raw : List Nat)
    (count width : Nat) (cv : Option Nat) :
    (count = 0 →
      ImageValidator.validate supported raw count width cv =
        .error .EmptyImage) ∧
    (count ≠ 0 → width ∉ supported →
      ImageValidator.validate supported raw count width cv =
        .error .UnsupportedWidth) ∧
    (count ≠ 0 → width ∈ supported → raw.length % 2 ≠ 0 →
      ImageValidator.validate supported raw count width cv =
        .error .MalformedImage) ∧
    (count ≠ 0 → width ∈ supported → raw.length % 2 = 0 →
      raw.length ≠ 2 * count →
      ImageValidator.validate supported raw count width cv =
        .error .CountMismatch) ∧
    (count ≠ 0 → width ∈ supported → raw.length % 2 = 0 →
      raw.length = 2 * count →
      ∀ i, ImageValidator.findOutOfRange width (ImageValidator.pairUp raw) =
          some i →
        ImageValidator.validate supported raw count width cv =
          .error (.ValueOutOfRange i)) := by
  refine ⟨?_, ?_, ?_, ?_, ?_⟩ <;> intros <;> simp_all [ImageValidator.validate]

/-- Witness for C5 at a concrete input failing the earliest check. -/
theorem validate_check_order_witness :
    ImageValidator.validate [44] [1, 2] 0 44 none = .error .EmptyImage :=
  (validate_check_order [44] [1, 2] 0 44 none).1 rfl

/-- Counterexample to C3 as stated: the input `rawWords = [1]`,
`declaredCount = 0` has `len(rawWords) != 2*declaredCount`, yet validation
fails with `EmptyImage`, which is neither `CountMismatch` nor
`MalformedImage` (the empty-count check fires first). -/
theorem length_mismatch_counterexample :
    List.length [1] ≠ 2 * 0 ∧
    ImageValidator.validate [44] [1] 0 44 none = .error .EmptyImage ∧
    ValidationError.EmptyImage ≠ ValidationError.CountMismatch ∧
    ValidationError.EmptyImage ≠ ValidationError.MalformedImage := by decide

/-- C3 (amended): for inputs that pass the earlier checks — nonzero
declared count and supported declared width — a raw length different from
`2 * declaredCount` makes validation fail with `MalformedImage` or
`CountMismatch`, so no `ConfigImage` is produced; in particular,
validating the first four words of `chroma_gpio24` with declared count 3
fails with `CountMismatch`. -/
theorem length_mismatch_amended (supported : List Nat) (raw : List Nat)
    (count width : Nat) (cv : Option Nat)
    (hc : count ≠ 0) (hw : width ∈ supported)
    (hlen : raw.length ≠ 2 * count) :
    (ImageValidator.validate supported raw count width cv =
        .error .MalformedImage ∨
      ImageValidator.validate supported raw count width cv =
        .error .CountMismatch) ∧
    ImageValidator.validate [44] (chroma_gpio24.take 4) 3 44 none =
      .error .CountMismatch := by
  refine ⟨?_, by decide⟩
  by_cases hpar : raw.length % 2 = 0
  · right; simp [ImageValidator.validate, hc, hw, hpar, hlen]
  · left; simp [ImageValidator.validate, hc, hw, hpar]

/-- Witness for C3 (amended) at a concrete mismatched input. -/
theorem length_mismatch_amended_witness :
    (ImageValidator.validate [44] [1, 2] 5 44 none =
        .error .MalformedImage ∨
      ImageValidator.validate [44] [1, 2] 5 44 none =
        .error .CountMismatch) ∧
    ImageValidator.validate [44] (chroma_gpio24.take 4) 3 44 none =
      .error .CountMismatch :=
  length_mismatch_amended [44] [1, 2] 5 44 none (by decide) (by decide)
    (by decide)

/-- Counterexample to C4 as stated: the sequence `[0, 2^44, 5]` contains
an entry (its first decoded pair) whose value exceeds width 44, yet
validation with declared count 2 fails with `MalformedImage` (odd length
is checked first), not with any `ValueOutOfRange`. -/
theorem value_out_of_range_counterexample :
    ((ImageValidator.pairUp [0, 2 ^ 44, 5]).getD 0 ⟨0, 0⟩).value >>> 44 ≠ 0 ∧
    ImageValidator.validate [44] [0, 2 ^ 44, 5] 2 44 none =
      .error .MalformedImage ∧
    ValidationError.isValueOutOfRange .MalformedImage = false := by decide

/-- C4 (amended): for inputs that pass the earlier structural checks —
nonzero declared count, supported width, raw length equal to
`2 * declaredCount` — if the decoded entry at index `j` has
`value >> declaredWidth != 0` and every earlier entry fits, validation
fails with `ValueOutOfRange j` (the first offending index), so no
`ConfigImage` is produced and nothing is ever applied to a sink. -/
theorem value_out_of_range_amended (supported : List Nat) (raw : List Nat)
    (count width : Nat) (cv : Option Nat) (j : Nat)
    (hc : count ≠ 0) (hw : width ∈ supported)
    (hlen : raw.length = 2 * count)
    (hj : j < (ImageValidator.pairUp raw).length)
    (hbad : ((ImageValidator.pairUp raw).get ⟨j, hj⟩).value >>> width ≠ 0)
    (hfirst : ∀ m (hm : m < j),
      ((ImageValidator.pairUp raw).get ⟨m, hm.trans hj⟩).value >>> width = 0) :
    ImageValidator.validate supported raw count width cv =
      .error (.ValueOutOfRange j) := by
  have hpar : raw.length % 2 = 0 := by omega
  have hfo := findOutOfRange_eq_some_of_first width
    (ImageValidator.pairUp raw) j hj hbad hfirst
  simp [ImageValidator.validate, hc, hw, hpar, hlen, hfo]

/-- Witness for C4 (amended) at a concrete out-of-range input. -/
theorem value_out_of_range_amended_witness :
    ImageValidator.validate [44] [1, 2 ^ 44] 1 44 none =
      .error (.ValueOutOfRange 0) :=
  value_out_of_range_amended [44] [1, 2 ^ 44] 1 44 none 0 (by decide)
    (by decide) (by decide) (by decide) (by decide)
    (fun m hm => absurd hm (Nat.not_lt_zero m))

/-- C6: whenever validation accepts a raw word table, re-serializing the
resulting image's entries (address-word then value-word per entry, in
entry order) reproduces the original raw word sequence exactly. -/
theorem validate_serialize_roundtrip (supported : List Nat) (raw : List Nat)
    (count width : Nat) (cv : Option Nat) (img : ConfigImage)
    (h : ImageValidator.validate supported raw count width cv = .ok img) :
    ImageValidator.serializeEntries img.entries = raw := by
  by_cases hc : count = 0
  · simp [ImageValidator.validate, hc] at h
  · by_cases hw : width ∈ supported
    · by_cases hpar : raw.length % 2 = 0
      · by_cases hlen : raw.length = 2 * count
        · rcases hfo : ImageValidator.findOutOfRange width
              (ImageValidator.pairUp raw) with _ | i
          · simp [ImageValidator.validate, hc, hw, hpar, hlen, hfo] at h
            subst h
            simpa using serializeEntries_pairUp raw hpar
          · simp [ImageValidator.validate, hc, hw, hpar, hlen, hfo] at h
        · simp [ImageValidator.validate, hc, hw, hpar, hlen] at h
      · simp [ImageValidator.validate, hc, hw, hpar] at h
    · simp [ImageValidator.validate, hc, hw] at h

/-- Witness for C6 at a concrete accepted table. -/
theorem validate_serialize_roundtrip_witness :
    ImageValidator.serializeEntries
      (ConfigImage.mk [⟨1, 2⟩] 1 44 none).entries = [1, 2] :=
  validate_serialize_roundtrip [44] [1, 2] 1 44 none
    (ConfigImage.mk [⟨1, 2⟩] 1 44 none) (by decide)

/-- C8: both embedded tables satisfy the structural invariants of a valid
image — nonzero declared count, 16 words = 2 * 8 declared entries, every
value fitting the declared 44-bit width — so `ImageValidator` accepts each
table with its declared metadata whenever width 44 is in the
supported-width set. -/
theorem embedded_tables_validate (supported : List Nat)
    (h : 44 ∈ supported) :
    chroma_gpio24_count ≠ 0 ∧
    chroma_gpio24.length = 2 * chroma_gpio24_count ∧
    (ImageValidator.pairUp chroma_gpio24).all
      (fun e => e.value >>> chroma_gpio24_width == 0) = true ∧
    ImageValidator.validate supported chroma_gpio24 chroma_gpio24_count
      chroma_gpio24_width none = .ok chroma_gpio24_image ∧
    chroma_spislave_count ≠ 0 ∧
    chroma_spislave.length = 2 * chroma_spislave_count ∧
    (ImageValidator.pairUp chroma_spislave).all
      (fun e => e.value >>> chroma_spislave_width == 0) = true ∧
    ImageValidator.validate supported chroma_spislave chroma_spislave_count
      chroma_spislave_width (some chroma_spislave_ctrlReg) =
      .ok chroma_spislave_image := by
  refine ⟨by decide, by decide, by decide, ?_, by decide, by decide,
    by decide, ?_⟩
  · rw [validate_width_mem supported chroma_gpio24 chroma_gpio24_count
      chroma_gpio24_width none h]
    decide
  · rw [validate_width_mem supported chroma_spislave chroma_spislave_count
      chroma_spislave_width (some chroma_spislave_ctrlReg) h]
    decide

/-- Witness for C8 at the singleton supported-width set. -/
theorem embedded_tables_validate_witness :
    ImageValidator.validate [44] chroma_gpio24 chroma_gpio24_count
      chroma_gpio24_width none = .ok chroma_gpio24_image ∧
    ImageValidator.validate [44] chroma_spislave chroma_spislave_count
      chroma_spislave_width (some chroma_spislave_ctrlReg) =
      .ok chroma_spislave_image :=
  ⟨(embedded_tables_validate [44] (by decide)).2.2.2.1,
    (embedded_tables_validate [44] (by decide)).2.2.2.2.2.2.2⟩

/-- C9: validation is pure — in the full pipeline, every validation
failure is reported with no write ever issued to the sink, whatever the
sink is; all validation errors precede any hardware-affecting
operation. -/
theorem validation_failure_no_writes (supported : List Nat)
    (sink : Nat → Nat → Nat → Bool) (ctrlAddr : Nat) (raw : List Nat)
    (count width : Nat) (cv : Option Nat) (e : ValidationError)
    (h : ImageValidator.validate supported raw count width cv = .error e) :
    (loadAndApply supported sink ctrlAddr raw count width cv).1 = [] ∧
    (loadAndApply supported sink ctrlAddr raw count width cv).2 =
      .error (.validation e) := by
  constructor <;> simp [loadAndApply, h]

/-- Witness for C9 at a concrete rejected input. -/
theorem validation_failure_no_writes_witness :
    (loadAndApply [44] (fun _ _ _ => true) 0 [1] 0 44 none).1 = [] ∧
    (loadAndApply [44] (fun _ _ _ => true) 0 [1] 0 44 none).2 =
      .error (.validation .EmptyImage) :=
  validation_failure_no_writes [44] (fun _ _ _ => true) 0 [1] 0 44 none
    .EmptyImage (by decide)

/-- C10: in both embedded tables every address word (even index) fits in
12 bits and every value word (odd index) fits in 28 bits, so each decoded
(address, value) pair occupies at most 40 bits — within the declared
44-bit width. -/
theorem embedded_tables_word_bounds :
    (∀ i, i < chroma_gpio24.length →
      (i % 2 = 0 → chroma_gpio24.getD i 0 >>> 12 = 0) ∧
      (i % 2 = 1 → chroma_gpio24.getD i 0 >>> 28 = 0)) ∧
    (∀ i, i < chroma_spislave.length →
      (i % 2 = 0 → chroma_spislave.getD i 0 >>> 12 = 0) ∧
      (i % 2 = 1 → chroma_spislave.getD i 0 >>> 28 = 0)) ∧
    (∀ e ∈ ImageValidator.pairUp chroma_gpio24,
      e.address >>> 12 = 0 ∧ e.value >>> 28 = 0 ∧
      (e.address * 2 ^ 28 + e.value) >>> 40 = 0) ∧
    (∀ e ∈ ImageValidator.pairUp chroma_spislave,
      e.address >>> 12 = 0 ∧ e.value >>> 28 = 0 ∧
      (e.address * 2 ^ 28 + e.value) >>> 40 = 0) ∧
    40 ≤ chroma_gpio24_width ∧ 40 ≤ chroma_spislave_width := by decide
